import Mathlib

/-!
Verification of `src/packages/distributed_tf/src/duckiebot_distributed_tf_node.py`.

The node is embedded shallowly: every callback becomes a pure state-transition
function, external collaborators (the tf lookup, the communication group) become
explicit inputs and outputs, and the float arithmetic of numpy and
tf.transformations is modelled exactly over the rationals.  The Euclidean gate
`dist < 0.2` of the odometry callback is encoded without square roots, as
`sqnorm t < MIN_DIST_ODOM ^ 2`; the lemma `gate_iff_sq` below certifies that the
encoding agrees with the comparison of the real square root against 0.2.
-/

/-- A 3-vector, as the numpy arrays built from geometry_msgs points. -/
structure Vec3 where
  x : ℚ
  y : ℚ
  z : ℚ
  deriving DecidableEq, Repr

/-- A quaternion in tf.transformations order (x, y, z, w). -/
structure Quat where
  x : ℚ
  y : ℚ
  z : ℚ
  w : ℚ
  deriving DecidableEq, Repr

/-- Componentwise difference, as `t_now_to_world - t_last_to_world`. -/
def vsub (a b : Vec3) : Vec3 :=
  ⟨a.x - b.x, a.y - b.y, a.z - b.z⟩

/-- Squared Euclidean norm of a 3-vector. -/
def sqnorm (v : Vec3) : ℚ :=
  v.x ^ 2 + v.y ^ 2 + v.z ^ 2

/-- tf.transformations.quaternion_multiply: Hamilton product, first argument on
the left, components in (x, y, z, w) order. -/
def quaternion_multiply (q1 q0 : Quat) : Quat :=
  ⟨q1.x * q0.w + q1.y * q0.z - q1.z * q0.y + q1.w * q0.x,
   -q1.x * q0.z + q1.y * q0.w + q1.z * q0.x + q1.w * q0.y,
   q1.x * q0.y - q1.y * q0.x + q1.z * q0.w + q1.w * q0.z,
   -q1.x * q0.x - q1.y * q0.y - q1.z * q0.z + q1.w * q0.w⟩

/-- tf.transformations.quaternion_conjugate: negate the vector part. -/
def quaternion_conjugate (q : Quat) : Quat :=
  ⟨-q.x, -q.y, -q.z, q.w⟩

/-- Componentwise negation of a quaternion. -/
def qneg (q : Quat) : Quat :=
  ⟨-q.x, -q.y, -q.z, -q.w⟩

/-- Squared norm of a quaternion, `numpy.dot(q, q)`. -/
def qnormSq (q : Quat) : ℚ :=
  q.x ^ 2 + q.y ^ 2 + q.z ^ 2 + q.w ^ 2

/-- The guard constant of tf.transformations.quaternion_matrix:
`numpy.finfo(float).eps * 4.0 = 2 ^ (-50)`. -/
def tfEPS : ℚ := 4 / 2 ^ 52

/-- A 3 x 3 matrix of rationals. -/
structure Mat3 where
  m00 : ℚ
  m01 : ℚ
  m02 : ℚ
  m10 : ℚ
  m11 : ℚ
  m12 : ℚ
  m20 : ℚ
  m21 : ℚ
  m22 : ℚ
  deriving DecidableEq, Repr

/-- The identity 3 x 3 matrix. -/
def idMat3 : Mat3 := ⟨1, 0, 0, 0, 1, 0, 0, 0, 1⟩

/-- tf.transformations.quaternion_matrix, restricted to the 3 x 3 rotation
block the node extracts with `now_to_last[0:3][:,0:3]`.  The function scales
the quaternion by `sqrt(2 / nq)`, so every entry `q[i, j]` of the outer
product equals `2 * q_i * q_j / nq`; below eliminates the square root by
writing the entries that way.  When `nq < _EPS` the library returns the
identity. -/
def quaternion_matrix (q : Quat) : Mat3 :=
  if qnormSq q < tfEPS then idMat3
  else
    ⟨1 - 2 * (q.y ^ 2 + q.z ^ 2) / qnormSq q, 2 * (q.x * q.y - q.z * q.w) / qnormSq q,
       2 * (q.x * q.z + q.y * q.w) / qnormSq q,
     2 * (q.x * q.y + q.z * q.w) / qnormSq q, 1 - 2 * (q.x ^ 2 + q.z ^ 2) / qnormSq q,
       2 * (q.y * q.z - q.x * q.w) / qnormSq q,
     2 * (q.x * q.z - q.y * q.w) / qnormSq q, 2 * (q.y * q.z + q.x * q.w) / qnormSq q,
       1 - 2 * (q.x ^ 2 + q.y ^ 2) / qnormSq q⟩

/-- `numpy.dot` of a 3 x 3 matrix with a 3-vector. -/
def matVec (m : Mat3) (v : Vec3) : Vec3 :=
  ⟨m.m00 * v.x + m.m01 * v.y + m.m02 * v.z,
   m.m10 * v.x + m.m11 * v.y + m.m12 * v.z,
   m.m20 * v.x + m.m21 * v.y + m.m22 * v.z⟩

/-- The two reference-frame kinds the node uses, AutolabReferenceFrame.TYPE_*. -/
inductive FrameType where
  | duckiebotTag
  | duckiebotFootprint
  deriving DecidableEq, Repr

/-- AutolabReferenceFrame: time stamp, kind, frame name, robot name. -/
structure AutolabReferenceFrame where
  time : ℚ
  type : FrameType
  name : String
  robot : String
  deriving DecidableEq, Repr

/-- geometry_msgs Transform: a translation and a rotation quaternion. -/
structure TransformMsg where
  translation : Vec3
  rotation : Quat
  deriving DecidableEq, Repr

/-- AutolabTransform: the edge message the node publishes. -/
structure AutolabTransform where
  origin : AutolabReferenceFrame
  target : AutolabReferenceFrame
  is_fixed : Bool
  is_static : Bool
  transform : TransformMsg
  deriving DecidableEq, Repr

/-- The static configuration of the node: parameters `~veh`, `~map` (already
sanitized in `__init__`), `~tag_id`. -/
structure Config where
  robot_hostname : String
  map_name : String
  tag_id : String
  deriving DecidableEq, Repr

/-- The frame name `tag/<tag_id>` built in `__init__`. -/
def tag_frame (cfg : Config) : String := "tag/" ++ cfg.tag_id

/-- The frame name `<robot_hostname>/footprint` built in `__init__`. -/
def footprint_frame (cfg : Config) : String := cfg.robot_hostname ++ "/footprint"

/-- MIN_DIST_ODOM = 0.2, the gate of the odometry decimator. -/
def MIN_DIST_ODOM : ℚ := 2 / 10

/-- The `_static_tfs` dictionary, as an insertion-ordered association list
from (origin-frame-name, target-frame-name) keys to optional edges, the
iteration order of a Python dict.  `__init__` seeds it with the single key
`(footprint_frame, tag_frame)` mapped to `None`; note that `_fetch_static_tfs`
stores under the swapped key `(tag_frame, footprint_frame)`, which the list
representation keeps as a second entry. -/
structure CacheState where
  entries : List ((String × String) × Option AutolabTransform)
  deriving DecidableEq, Repr

/-- The initial cache built in `__init__`:
`{(footprint_frame, tag_frame): None}`. -/
def initCache (cfg : Config) : CacheState :=
  ⟨[((footprint_frame cfg, tag_frame cfg), none)]⟩

/-- Python dict assignment `d[k] = v`: update in place when the key exists,
otherwise append at the end (insertion order). -/
def dictInsert (k : String × String) (v : Option AutolabTransform) :
    List ((String × String) × Option AutolabTransform) →
      List ((String × String) × Option AutolabTransform)
  | [] => [(k, v)]
  | (k', v') :: rest =>
    if k' = k then (k, v) :: rest else (k', v') :: dictInsert k v rest

/-- Python dict lookup: `some v` when the key is present with value v. -/
def dictGet (k : String × String) :
    List ((String × String) × Option AutolabTransform) →
      Option (Option AutolabTransform)
  | [] => none
  | (k', v') :: rest => if k' = k then some v' else dictGet k rest

/-- Outcome of `self._tf_buffer.lookup_transform(origin, target, rospy.Time())`:
either a stamped transform, or one of the three tf2 exceptions the node
catches. -/
inductive LookupResult where
  | ok (stamp : ℚ) (t : TransformMsg)
  | lookupExc
  | extrapolationExc
  | connectivityExc
  deriving DecidableEq, Repr

/-- True on the three exception outcomes of the lookup. -/
def LookupResult.isFailure : LookupResult → Bool
  | .ok _ _ => false
  | _ => true

/-- The AutolabTransform built by `_fetch_static_tfs` on a successful lookup:
origin is the tag frame, target the footprint frame, both stamped with the
header stamp of the looked-up transform, `is_fixed=True`, `is_static=False`. -/
def mkStaticEdge (cfg : Config) (stamp : ℚ) (t : TransformMsg) : AutolabTransform :=
  { origin := ⟨stamp, .duckiebotTag, tag_frame cfg, cfg.robot_hostname⟩,
    target := ⟨stamp, .duckiebotFootprint, footprint_frame cfg, cfg.robot_hostname⟩,
    is_fixed := true,
    is_static := false,
    transform := t }

/-- `_fetch_static_tfs` as a state transition on the cache.  On success it
stores the freshly built edge with
`self._static_tfs[(origin, target)] = tf` where `origin = self._tag_frame`
and `target = self._footprint_frame` — the key swapped relative to the one
seeded in `__init__`, so the first success appends a second entry
(overwriting it on later successes).  Each exception branch is caught
(logwarn or pass) and leaves the cache untouched, so the function is total:
no outcome escapes as a crash. -/
def fetch_static_tfs (cfg : Config) (s : CacheState) (r : LookupResult) : CacheState :=
  match r with
  | .ok stamp t =>
    ⟨dictInsert (tag_frame cfg, footprint_frame cfg) (some (mkStaticEdge cfg stamp t))
      s.entries⟩
  | .lookupExc => s
  | .extrapolationExc => s
  | .connectivityExc => s

/-- The snapshot taken inside the semaphore by `_publish_static_tfs`:
`for transform in self._static_tfs.values(): tfs.append(transform)`.
Every dictionary value is appended in insertion order, whether or not it is
`None`. -/
def snapshot (s : CacheState) : List (Option AutolabTransform) :=
  s.entries.map (fun kv => kv.2)

/-- `_publish_static_tfs`: the list of `(message, destination)` publish calls
it performs, one per snapshot element. -/
def publish_static_tfs (cfg : Config) (s : CacheState) :
    List (Option AutolabTransform × String) :=
  (snapshot s).map (fun tf => (tf, cfg.map_name))

/-- An odometry sample as `_cb_odometry` reads it: `header.stamp`,
`pose.pose.position`, `pose.pose.orientation`. -/
structure OdomMsg where
  stamp : ℚ
  position : Vec3
  orientation : Quat
  deriving DecidableEq, Repr

/-- The decimator state: `self._pose_last`, `None` before the first sample. -/
structure DecimState where
  pose_last : Option OdomMsg
  deriving DecidableEq, Repr

/-- `q_now_to_last` as the node computes it: the last orientation with its w
component negated (`q_world_to_last[3] *= -1`), multiplied on the left of the
current orientation.  Note the node negates w rather than taking the
conjugate, so this is the negation of `conjugate(q_last) * q_now`. -/
def q_now_to_last (q_last q_now : Quat) : Quat :=
  quaternion_multiply ⟨q_last.x, q_last.y, q_last.z, -q_last.w⟩ q_now

/-- `t_now_to_last` as the node computes it: the rotation block of
`quaternion_matrix(q_now_to_last)` applied to the world-frame displacement
`t_now_to_world - t_last_to_world`. -/
def t_now_to_last (pose_last pose_now : OdomMsg) : Vec3 :=
  matVec (quaternion_matrix (q_now_to_last pose_last.orientation pose_now.orientation))
    (vsub pose_now.position pose_last.position)

/-- The AutolabTransform built at the end of `_cb_odometry`: both endpoints are
the footprint frame, origin stamped with the last pose, target with the
current pose, `is_fixed=False`, `is_static=False`. -/
def mkOdomEdge (cfg : Config) (pose_last pose_now : OdomMsg) : AutolabTransform :=
  { origin := ⟨pose_last.stamp, .duckiebotFootprint, footprint_frame cfg, cfg.robot_hostname⟩,
    target := ⟨pose_now.stamp, .duckiebotFootprint, footprint_frame cfg, cfg.robot_hostname⟩,
    is_fixed := false,
    is_static := false,
    transform := ⟨t_now_to_last pose_last pose_now, q_now_to_last pose_last.orientation pose_now.orientation⟩ }

/-- `_cb_odometry` as a state transition returning the published edge, if any.
On the first sample it stores the pose and returns nothing.  Afterwards it
compares `dist = norm(t_now_to_last)` against MIN_DIST_ODOM (encoded
square-root-free as `sqnorm < MIN_DIST_ODOM ^ 2`, see `gate_iff_sq`) and
either suppresses the sample or publishes the relative edge.  The source never
reassigns `self._pose_last` after the first sample, so the state is returned
unchanged on both branches. -/
def cb_odometry (cfg : Config) (s : DecimState) (pose_now : OdomMsg) :
    DecimState × Option AutolabTransform :=
  match s.pose_last with
  | none => (⟨some pose_now⟩, none)
  | some pose_last =>
    if sqnorm (t_now_to_last pose_last pose_now) < MIN_DIST_ODOM ^ 2 then
      (s, none)
    else
      (s, some (mkOdomEdge cfg pose_last pose_now))

/-- True on the ASCII characters matched by the regex class `[0-9a-zA-Z]`. -/
def isAlnumChar (c : Char) : Bool :=
  (decide ('0' ≤ c) && decide (c ≤ '9')) || (decide ('a' ≤ c) && decide (c ≤ 'z')) ||
    (decide ('A' ≤ c) && decide (c ≤ 'Z'))

/-- `re.sub("[^0-9a-zA-Z]+", "", s)` on a character list: each maximal run of
characters outside the class is matched as a block and replaced by the empty
string. -/
def subNonAlnum : List Char → List Char
  | [] => []
  | c :: cs =>
    if isAlnumChar c then c :: subNonAlnum cs
    else subNonAlnum (cs.dropWhile (fun d => !isAlnumChar d))
termination_by l => l.length
decreasing_by
  · simp only [List.length_cons]
    omega
  · have h := (List.dropWhile_sublist (l := cs) (fun d => !isAlnumChar d)).length_le
    simp only [List.length_cons]
    omega

/-- `_sanitize_hostname`. -/
def sanitize_hostname (s : String) : String :=
  ⟨subNonAlnum s.data⟩

/-- Spec-side definition, following the spec words for the relative rotation:
conjugate(lastEmittedPose.rotation) composed with pose.rotation. -/
def specRelRotation (pose_last pose_now : OdomMsg) : Quat :=
  quaternion_multiply (quaternion_conjugate pose_last.orientation) pose_now.orientation

/-- Spec-side definition, following the spec words for the relative
translation: the world-frame displacement rotated by the conjugate of
lastEmittedPose.rotation. -/
def specRelTranslation (pose_last pose_now : OdomMsg) : Vec3 :=
  matVec (quaternion_matrix (quaternion_conjugate pose_last.orientation))
    (vsub pose_now.position pose_last.position)

/-- A concrete configuration used for concrete evaluations. -/
def cfg0 : Config := ⟨"autobot01", "lab", "380"⟩

/-- Pose at the world origin with identity orientation, stamp 0. -/
def P0 : OdomMsg := ⟨0, ⟨0, 0, 0⟩, ⟨0, 0, 0, 1⟩⟩

/-- Pose at (1,0,0) rotated 180 degrees about z, stamp 1. -/
def P1 : OdomMsg := ⟨1, ⟨1, 0, 0⟩, ⟨0, 0, 1, 0⟩⟩

/-- Pose at (1,0,0) with identity orientation, stamp 2. -/
def P2 : OdomMsg := ⟨2, ⟨1, 0, 0⟩, ⟨0, 0, 0, 1⟩⟩

/-- Pose at (0.1,0,0) with identity orientation, stamp 3: below the gate. -/
def P3 : OdomMsg := ⟨3, ⟨1 / 10, 0, 0⟩, ⟨0, 0, 0, 1⟩⟩

/-- A concrete identity transform message. -/
def T1 : TransformMsg := ⟨⟨0, 0, 0⟩, ⟨0, 0, 0, 1⟩⟩

/-- The edge a first successful fetch stores at stamp 0. -/
def edge0 : AutolabTransform := mkStaticEdge cfg0 0 T1

/-- The cache after a first successful fetch at stamp 0: the seeded None
entry followed by the stored edge under the swapped key. -/
def cache1 : CacheState := fetch_static_tfs cfg0 (initCache cfg0) (.ok 0 T1)

/-- Inserting a key makes it present with exactly the inserted value. -/
theorem dictGet_dictInsert (k : String × String) (v : Option AutolabTransform) :
    ∀ l, dictGet k (dictInsert k v l) = some v := by
  intro l
  induction l with
  | nil => simp [dictInsert, dictGet]
  | cons kv rest ih =>
    obtain ⟨k', v'⟩ := kv
    by_cases h : k' = k
    · simp [dictInsert, dictGet, h]
    · simp [dictInsert, dictGet, h, ih]

theorem qnormSq_nonneg (q : Quat) : 0 ≤ qnormSq q := by
  unfold qnormSq
  positivity

theorem sqnorm_nonneg (v : Vec3) : 0 ≤ sqnorm v := by
  unfold sqnorm
  positivity

/-- The square-root-free gate encoding agrees with the float comparison
`dist < 0.2` of the source, read over the reals. -/
theorem gate_iff_sq (v : Vec3) :
    Real.sqrt ((sqnorm v : ℝ)) < ((MIN_DIST_ODOM : ℚ) : ℝ) ↔
      sqnorm v < MIN_DIST_ODOM ^ 2 := by
  have h2 : (0 : ℝ) < ((MIN_DIST_ODOM : ℚ) : ℝ) := by
    norm_num [MIN_DIST_ODOM]
  rw [Real.sqrt_lt' h2]
  constructor
  · intro h
    exact_mod_cast h
  · intro h
    exact_mod_cast h

/-- The 3 x 3 block of quaternion_matrix preserves the squared norm: it is the
identity below the epsilon guard and an orthogonal rotation matrix above it. -/
theorem sqnorm_matVec_quaternion_matrix (q : Quat) (v : Vec3) :
    sqnorm (matVec (quaternion_matrix q) v) = sqnorm v := by
  unfold quaternion_matrix
  split
  · simp [matVec, idMat3, sqnorm]
  · rename_i hn
    have h0 : qnormSq q ≠ 0 := by
      intro h
      rw [h] at hn
      exact hn (by norm_num [tfEPS])
    simp only [matVec, sqnorm, qnormSq] at h0 ⊢
    field_simp
    ring

/-- quaternion_matrix is even: negating the quaternion leaves it unchanged. -/
theorem quaternion_matrix_qneg (q : Quat) :
    quaternion_matrix (qneg q) = quaternion_matrix q := by
  have hn : qnormSq (qneg q) = qnormSq q := by
    simp only [qnormSq, qneg]
    ring
  unfold quaternion_matrix
  rw [hn]
  split
  · rfl
  · simp only [qneg]
    congr 1 <;> ring

/-- Negating the w component of the left factor, as `q_world_to_last[3] *= -1`
does, yields the negation of the product with the conjugate. -/
theorem q_now_to_last_eq_qneg (q_last q_now : Quat) :
    q_now_to_last q_last q_now =
      qneg (quaternion_multiply (quaternion_conjugate q_last) q_now) := by
  simp only [q_now_to_last, quaternion_multiply, quaternion_conjugate, qneg]
  congr 1 <;> ring

/-- C8: the very first invocation of the odometry callback stores the given
pose as the last pose and returns nothing. -/
theorem first_observe_stores_pose (cfg : Config) (p : OdomMsg) :
    cb_odometry cfg ⟨none⟩ p = (⟨some p⟩, none) := rfl

/-- C7: every failing fetch attempt (lookup miss, extrapolation failure or
connectivity error) leaves the cache exactly unchanged; the function is total,
so the failure never escapes as a crash. -/
theorem failed_fetch_is_noop (cfg : Config) (s : CacheState) (r : LookupResult)
    (h : r.isFailure = true) : fetch_static_tfs cfg s r = s := by
  cases r <;> simp_all [LookupResult.isFailure, fetch_static_tfs]

/-- Witness for failed_fetch_is_noop at a concrete failing lookup. -/
theorem failed_fetch_is_noop_witness :
    LookupResult.lookupExc.isFailure = true ∧
    fetch_static_tfs cfg0 (initCache cfg0) LookupResult.lookupExc = initCache cfg0 :=
  ⟨rfl, failed_fetch_is_noop cfg0 (initCache cfg0) LookupResult.lookupExc rfl⟩

/-- C2 counterexample: a repeated fetch on an already-populated cache is not a
no-op; a second successful lookup (here at a later stamp) re-derives the edge
and overwrites the stored one under the fetched key. -/
theorem repeated_fetch_overwrites_cache :
    dictGet (tag_frame cfg0, footprint_frame cfg0) cache1.entries = some (some edge0) ∧
    dictGet (tag_frame cfg0, footprint_frame cfg0)
        (fetch_static_tfs cfg0 cache1 (.ok 1 T1)).entries =
      some (some (mkStaticEdge cfg0 1 T1)) ∧
    decide (fetch_static_tfs cfg0 cache1 (.ok 1 T1) = cache1) = false := by
  decide

/-- C2 amended: once populated under the fetched key the cache value is never
cleared, and failed attempts leave the whole cache unchanged; but a repeated
successful fetch overwrites the stored edge with the freshly re-derived one. -/
theorem populated_cache_transitions (cfg : Config) (s : CacheState)
    (r : LookupResult) (e : AutolabTransform) (st : ℚ) (t : TransformMsg)
    (h : dictGet (tag_frame cfg, footprint_frame cfg) s.entries = some (some e)) :
    (dictGet (tag_frame cfg, footprint_frame cfg)
        (fetch_static_tfs cfg s r).entries).isSome = true ∧
    (r.isFailure = true → fetch_static_tfs cfg s r = s) ∧
    dictGet (tag_frame cfg, footprint_frame cfg)
        (fetch_static_tfs cfg s (.ok st t)).entries =
      some (some (mkStaticEdge cfg st t)) := by
  refine ⟨?_, ?_, dictGet_dictInsert _ _ _⟩
  · cases r <;> simp [fetch_static_tfs, h, dictGet_dictInsert]
  · intro hf
    cases r <;> simp_all [LookupResult.isFailure, fetch_static_tfs]

/-- Witness for populated_cache_transitions at a concrete populated cache. -/
theorem populated_cache_transitions_witness :
    dictGet (tag_frame cfg0, footprint_frame cfg0) cache1.entries = some (some edge0) ∧
    ((dictGet (tag_frame cfg0, footprint_frame cfg0)
        (fetch_static_tfs cfg0 cache1 LookupResult.connectivityExc).entries).isSome = true ∧
     (LookupResult.connectivityExc.isFailure = true →
       fetch_static_tfs cfg0 cache1 LookupResult.connectivityExc = cache1) ∧
     dictGet (tag_frame cfg0, footprint_frame cfg0)
        (fetch_static_tfs cfg0 cache1 (.ok 1 T1)).entries =
      some (some (mkStaticEdge cfg0 1 T1))) :=
  ⟨by decide,
   populated_cache_transitions cfg0 cache1 LookupResult.connectivityExc edge0 1 T1
     (by decide)⟩

/-- C3: the snapshot taken by the publish action appends every dictionary
value including the None placeholder, so before the first successful fetch it
is the one-element list [none] (not the empty list) and the publish loop
performs one call with a null message; and because the fetch stores under the
swapped key (tag, footprint) while the seeded key is (footprint, tag), after
a successful fetch the snapshot is [none, edge] — the null placeholder keeps
being published forever, alongside the stored edge. -/
theorem snapshot_contains_none_entry :
    snapshot (initCache cfg0) = [none] ∧
    decide (snapshot (initCache cfg0) = []) = false ∧
    publish_static_tfs cfg0 (initCache cfg0) = [(none, "lab")] ∧
    snapshot (fetch_static_tfs cfg0 (initCache cfg0) (.ok 0 T1)) =
      [none, some (mkStaticEdge cfg0 0 T1)] ∧
    publish_static_tfs cfg0 (fetch_static_tfs cfg0 (initCache cfg0) (.ok 0 T1)) =
      [(none, "lab"), (some (mkStaticEdge cfg0 0 T1), "lab")] := by
  decide

/-- The suppress branch of the odometry callback: below the gate nothing is
returned and the state is unchanged. -/
theorem cb_odometry_suppress (cfg : Config) (pl pn : OdomMsg)
    (h : sqnorm (t_now_to_last pl pn) < MIN_DIST_ODOM ^ 2) :
    cb_odometry cfg ⟨some pl⟩ pn = (⟨some pl⟩, none) := by
  simp [cb_odometry, h]

/-- The emit branch of the odometry callback: at or above the gate the
relative edge is returned and the state is (still) unchanged. -/
theorem cb_odometry_emit (cfg : Config) (pl pn : OdomMsg)
    (h : ¬sqnorm (t_now_to_last pl pn) < MIN_DIST_ODOM ^ 2) :
    cb_odometry cfg ⟨some pl⟩ pn = (⟨some pl⟩, some (mkOdomEdge cfg pl pn)) := by
  simp [cb_odometry, h]

theorem qm_eval_negw : quaternion_matrix ⟨0, 0, 0, -1⟩ = idMat3 := by
  have hn : ¬qnormSq (⟨0, 0, 0, -1⟩ : Quat) < tfEPS := by
    norm_num [qnormSq, tfEPS]
  simp only [quaternion_matrix, if_neg hn]
  norm_num [qnormSq, idMat3]

theorem qm_eval_negz : quaternion_matrix ⟨0, 0, -1, 0⟩ =
    ⟨-1, 0, 0, 0, -1, 0, 0, 0, 1⟩ := by
  have hn : ¬qnormSq (⟨0, 0, -1, 0⟩ : Quat) < tfEPS := by
    norm_num [qnormSq, tfEPS]
  simp only [quaternion_matrix, if_neg hn]
  norm_num [qnormSq]

theorem t_eval_P0_P2 : t_now_to_last P0 P2 = ⟨1, 0, 0⟩ := by
  have hq : q_now_to_last P0.orientation P2.orientation = ⟨0, 0, 0, -1⟩ := by
    norm_num [P0, P2, q_now_to_last, quaternion_multiply]
  simp only [t_now_to_last, hq, qm_eval_negw]
  norm_num [matVec, idMat3, vsub, P0, P2]

theorem t_eval_P0_P3 : t_now_to_last P0 P3 = ⟨1 / 10, 0, 0⟩ := by
  have hq : q_now_to_last P0.orientation P3.orientation = ⟨0, 0, 0, -1⟩ := by
    norm_num [P0, P3, q_now_to_last, quaternion_multiply]
  simp only [t_now_to_last, hq, qm_eval_negw]
  norm_num [matVec, idMat3, vsub, P0, P3]

theorem t_eval_P0_P1 : t_now_to_last P0 P1 = ⟨-1, 0, 0⟩ := by
  have hq : q_now_to_last P0.orientation P1.orientation = ⟨0, 0, -1, 0⟩ := by
    norm_num [P0, P1, q_now_to_last, quaternion_multiply]
  simp only [t_now_to_last, hq, qm_eval_negz]
  norm_num [matVec, vsub, P0, P1]

theorem gate_P0_P2 : ¬sqnorm (t_now_to_last P0 P2) < MIN_DIST_ODOM ^ 2 := by
  rw [t_eval_P0_P2]
  norm_num [sqnorm, MIN_DIST_ODOM]

theorem gate_P0_P1 : ¬sqnorm (t_now_to_last P0 P1) < MIN_DIST_ODOM ^ 2 := by
  rw [t_eval_P0_P1]
  norm_num [sqnorm, MIN_DIST_ODOM]

theorem gate_P0_P3 : sqnorm (t_now_to_last P0 P3) < MIN_DIST_ODOM ^ 2 := by
  rw [t_eval_P0_P3]
  norm_num [sqnorm, MIN_DIST_ODOM]

/-- C1: after an emitting call the last pose is left unchanged (the source
never reassigns `self._pose_last` after the first sample), so it does not
advance to the observed pose; on a suppressed call it is also unchanged. -/
theorem emit_leaves_pose_last_unchanged :
    (cb_odometry cfg0 ⟨some P0⟩ P2).2 = some (mkOdomEdge cfg0 P0 P2) ∧
    (cb_odometry cfg0 ⟨some P0⟩ P2).1 = ⟨some P0⟩ ∧
    (⟨some P0⟩ : DecimState) ≠ ⟨some P2⟩ ∧
    (cb_odometry cfg0 ⟨some P0⟩ P3).2 = none ∧
    (cb_odometry cfg0 ⟨some P0⟩ P3).1 = ⟨some P0⟩ := by
  have he := cb_odometry_emit cfg0 P0 P2 gate_P0_P2
  have hs := cb_odometry_suppress cfg0 P0 P3 gate_P0_P3
  refine ⟨by rw [he], by rw [he], ?_, by rw [hs], by rw [hs]⟩
  norm_num [P0, P2]

/-- Any emitted edge is the relative edge built from the stored last pose. -/
theorem emitted_edge_eq (cfg : Config) (pl pn : OdomMsg) (e : AutolabTransform)
    (h : (cb_odometry cfg ⟨some pl⟩ pn).2 = some e) : e = mkOdomEdge cfg pl pn := by
  by_cases hg : sqnorm (t_now_to_last pl pn) < MIN_DIST_ODOM ^ 2
  · rw [cb_odometry_suppress cfg pl pn hg] at h
    exact absurd h (by simp)
  · rw [cb_odometry_emit cfg pl pn hg] at h
    exact (Option.some_inj.mp h).symm

/-- C4 counterexample: with the last pose at the origin with identity
orientation and the observed pose at (1,0,0) turned 180 degrees about z, the
emitted translation is (-1,0,0), while the displacement rotated by the
conjugate of the last orientation is (1,0,0). -/
theorem translation_not_conjugate_rotated :
    (cb_odometry cfg0 ⟨some P0⟩ P1).2 = some (mkOdomEdge cfg0 P0 P1) ∧
    (mkOdomEdge cfg0 P0 P1).transform.translation = ⟨-1, 0, 0⟩ ∧
    specRelTranslation P0 P1 = ⟨1, 0, 0⟩ ∧
    (⟨-1, 0, 0⟩ : Vec3) ≠ ⟨1, 0, 0⟩ := by
  refine ⟨by rw [cb_odometry_emit cfg0 P0 P1 gate_P0_P1], ?_, ?_, by norm_num⟩
  · show t_now_to_last P0 P1 = _
    exact t_eval_P0_P1
  · have hc : quaternion_conjugate P0.orientation = ⟨0, 0, 0, 1⟩ := by
      norm_num [P0, quaternion_conjugate]
    have hm : quaternion_matrix ⟨0, 0, 0, 1⟩ = idMat3 := by
      have hn : ¬qnormSq (⟨0, 0, 0, 1⟩ : Quat) < tfEPS := by
        norm_num [qnormSq, tfEPS]
      simp only [quaternion_matrix, if_neg hn]
      norm_num [qnormSq, idMat3]
    simp only [specRelTranslation, hc, hm]
    norm_num [matVec, idMat3, vsub, P0, P1]

/-- C4 amended: the emitted translation is the world-frame displacement
rotated by the rotation matrix of the full relative rotation
conjugate(last.rotation) composed with pose.rotation, not by the conjugate of
the last rotation alone. -/
theorem emitted_translation_uses_relative_rotation (cfg : Config)
    (pl pn : OdomMsg) (e : AutolabTransform)
    (h : (cb_odometry cfg ⟨some pl⟩ pn).2 = some e) :
    e.transform.translation =
      matVec (quaternion_matrix (specRelRotation pl pn))
        (vsub pn.position pl.position) := by
  rw [emitted_edge_eq cfg pl pn e h]
  show t_now_to_last pl pn = _
  unfold t_now_to_last
  rw [q_now_to_last_eq_qneg, quaternion_matrix_qneg]
  rfl

/-- Witness for emitted_translation_uses_relative_rotation at concrete poses. -/
theorem emitted_translation_uses_relative_rotation_witness :
    (cb_odometry cfg0 ⟨some P0⟩ P1).2 = some (mkOdomEdge cfg0 P0 P1) ∧
    (mkOdomEdge cfg0 P0 P1).transform.translation =
      matVec (quaternion_matrix (specRelRotation P0 P1))
        (vsub P1.position P0.position) := by
  have h : (cb_odometry cfg0 ⟨some P0⟩ P1).2 = some (mkOdomEdge cfg0 P0 P1) := by
    rw [cb_odometry_emit cfg0 P0 P1 gate_P0_P1]
  exact ⟨h, emitted_translation_uses_relative_rotation cfg0 P0 P1 _ h⟩

/-- C5 counterexample: with both orientations the identity and the observed
pose at (1,0,0), the emitted rotation quaternion is (0,0,0,-1), while
conjugate(last.rotation) composed with pose.rotation is the identity
(0,0,0,1). -/
theorem rotation_not_conjugate_product :
    (cb_odometry cfg0 ⟨some P0⟩ P2).2 = some (mkOdomEdge cfg0 P0 P2) ∧
    (mkOdomEdge cfg0 P0 P2).transform.rotation = ⟨0, 0, 0, -1⟩ ∧
    specRelRotation P0 P2 = ⟨0, 0, 0, 1⟩ ∧
    (⟨0, 0, 0, -1⟩ : Quat) ≠ ⟨0, 0, 0, 1⟩ := by
  refine ⟨by rw [cb_odometry_emit cfg0 P0 P2 gate_P0_P2], ?_, ?_, by norm_num⟩
  · show q_now_to_last P0.orientation P2.orientation = _
    norm_num [P0, P2, q_now_to_last, quaternion_multiply]
  · norm_num [P0, P2, specRelRotation, quaternion_conjugate, quaternion_multiply]

/-- C5 amended: the emitted rotation quaternion is the componentwise negation
of conjugate(last.rotation) composed with pose.rotation (the same spatial
rotation with opposite sign, because the code negates only the w component of
the last orientation instead of conjugating it). -/
theorem emitted_rotation_negated_conjugate_product (cfg : Config)
    (pl pn : OdomMsg) (e : AutolabTransform)
    (h : (cb_odometry cfg ⟨some pl⟩ pn).2 = some e) :
    e.transform.rotation = qneg (specRelRotation pl pn) := by
  rw [emitted_edge_eq cfg pl pn e h]
  show q_now_to_last pl.orientation pn.orientation = _
  rw [q_now_to_last_eq_qneg]
  rfl

/-- Witness for emitted_rotation_negated_conjugate_product at concrete poses. -/
theorem emitted_rotation_negated_conjugate_product_witness :
    (cb_odometry cfg0 ⟨some P0⟩ P2).2 = some (mkOdomEdge cfg0 P0 P2) ∧
    (mkOdomEdge cfg0 P0 P2).transform.rotation = qneg (specRelRotation P0 P2) := by
  have h : (cb_odometry cfg0 ⟨some P0⟩ P2).2 = some (mkOdomEdge cfg0 P0 P2) := by
    rw [cb_odometry_emit cfg0 P0 P2 gate_P0_P2]
  exact ⟨h, emitted_rotation_negated_conjugate_product cfg0 P0 P2 _ h⟩

/-- C6: writing dist for the Euclidean norm of the computed relative
translation, a call after the first returns nothing when dist < 0.2 and
otherwise returns the relative edge, whose translation has Euclidean norm
exactly dist. -/
theorem observe_gate_by_norm (cfg : Config) (pl pn : OdomMsg) :
    (Real.sqrt ((sqnorm (t_now_to_last pl pn) : ℝ)) < ((MIN_DIST_ODOM : ℚ) : ℝ) →
      (cb_odometry cfg ⟨some pl⟩ pn).2 = none) ∧
    (((MIN_DIST_ODOM : ℚ) : ℝ) ≤ Real.sqrt ((sqnorm (t_now_to_last pl pn) : ℝ)) →
      (cb_odometry cfg ⟨some pl⟩ pn).2 = some (mkOdomEdge cfg pl pn) ∧
      Real.sqrt ((sqnorm (mkOdomEdge cfg pl pn).transform.translation : ℝ)) =
        Real.sqrt ((sqnorm (t_now_to_last pl pn) : ℝ))) := by
  constructor
  · intro h
    rw [gate_iff_sq] at h
    rw [cb_odometry_suppress cfg pl pn h]
  · intro h
    have hg : ¬sqnorm (t_now_to_last pl pn) < MIN_DIST_ODOM ^ 2 := by
      rw [← gate_iff_sq]
      exact not_lt.mpr h
    exact ⟨by rw [cb_odometry_emit cfg pl pn hg], rfl⟩

/-- Witness for observe_gate_by_norm: at the concrete emitting pair the gate
is met and the edge with matching norm is returned. -/
theorem observe_gate_by_norm_witness :
    (((MIN_DIST_ODOM : ℚ) : ℝ) ≤ Real.sqrt ((sqnorm (t_now_to_last P0 P2) : ℝ))) ∧
    ((cb_odometry cfg0 ⟨some P0⟩ P2).2 = some (mkOdomEdge cfg0 P0 P2) ∧
      Real.sqrt ((sqnorm (mkOdomEdge cfg0 P0 P2).transform.translation : ℝ)) =
        Real.sqrt ((sqnorm (t_now_to_last P0 P2) : ℝ))) := by
  have h1 : sqnorm (t_now_to_last P0 P2) = 1 := by
    rw [t_eval_P0_P2]
    norm_num [sqnorm]
  have h : ((MIN_DIST_ODOM : ℚ) : ℝ) ≤ Real.sqrt ((sqnorm (t_now_to_last P0 P2) : ℝ)) := by
    rw [h1]
    push_cast
    rw [Real.sqrt_one]
    norm_num [MIN_DIST_ODOM]
  exact ⟨h, (observe_gate_by_norm cfg0 P0 P2).2 h⟩

/-- C10: the gating distance equals the Euclidean norm of the raw world-frame
displacement, because the displacement is multiplied by a norm-preserving
matrix; hence the emit/suppress decision depends only on the two positions,
not on either orientation. -/
theorem gating_orientation_independent (cfg : Config) (pl pn : OdomMsg) :
    sqnorm (t_now_to_last pl pn) = sqnorm (vsub pn.position pl.position) ∧
    Real.sqrt ((sqnorm (t_now_to_last pl pn) : ℝ)) =
      Real.sqrt ((sqnorm (vsub pn.position pl.position) : ℝ)) ∧
    ((cb_odometry cfg ⟨some pl⟩ pn).2 = none ↔
      sqnorm (vsub pn.position pl.position) < MIN_DIST_ODOM ^ 2) := by
  have h : sqnorm (t_now_to_last pl pn) = sqnorm (vsub pn.position pl.position) :=
    sqnorm_matVec_quaternion_matrix _ _
  refine ⟨h, by rw [h], ?_⟩
  rw [← h]
  by_cases hg : sqnorm (t_now_to_last pl pn) < MIN_DIST_ODOM ^ 2
  · rw [cb_odometry_suppress cfg pl pn hg]
    simp [hg]
  · rw [cb_odometry_emit cfg pl pn hg]
    simp [hg]

/-- Witness for gating_orientation_independent at a concrete pose pair. -/
theorem gating_orientation_independent_witness :
    sqnorm (t_now_to_last P0 P1) = sqnorm (vsub P1.position P0.position) ∧
    Real.sqrt ((sqnorm (t_now_to_last P0 P1) : ℝ)) =
      Real.sqrt ((sqnorm (vsub P1.position P0.position) : ℝ)) ∧
    ((cb_odometry cfg0 ⟨some P0⟩ P1).2 = none ↔
      sqnorm (vsub P1.position P0.position) < MIN_DIST_ODOM ^ 2) :=
  gating_orientation_independent cfg0 P0 P1

/-- Skipping a maximal run of rejected characters does not change the result
of filtering. -/
theorem filter_dropWhile_not (p : Char → Bool) :
    ∀ l : List Char, ((l.dropWhile fun d => !p d).filter p) = l.filter p := by
  intro l
  induction l with
  | nil => rfl
  | cons a l ih =>
    by_cases h : p a
    · simp [List.dropWhile_cons, List.filter_cons, h]
    · simp [List.dropWhile_cons, List.filter_cons, h, ih]

/-- The run-based regex substitution is the alphanumeric filter. -/
theorem subNonAlnum_eq_filter : ∀ l : List Char, subNonAlnum l = l.filter isAlnumChar := by
  intro l
  induction l using subNonAlnum.induct with
  | case1 => simp [subNonAlnum]
  | case2 c cs hc ih =>
    simp only [subNonAlnum]
    rw [if_pos hc, ih, List.filter_cons]
    simp [hc]
  | case3 c cs hc ih =>
    simp only [subNonAlnum]
    rw [if_neg hc, ih, filter_dropWhile_not, List.filter_cons]
    simp [hc]

/-- C9: sanitization deletes exactly the characters outside [0-9a-zA-Z]; in
particular "auto-bot_01!" maps to "autobot01". -/
theorem sanitize_hostname_deletes_nonalnum (s : String) :
    sanitize_hostname s = ⟨s.data.filter isAlnumChar⟩ ∧
    sanitize_hostname "auto-bot_01!" = "autobot01" := by
  constructor
  · unfold sanitize_hostname
    rw [subNonAlnum_eq_filter]
  · unfold sanitize_hostname
    rw [subNonAlnum_eq_filter]
    decide
